import Mathlib

/-!
Shallow embedding of the `ansible-ceph-config` repository:
`module_utils/ceph_common.py` and `modules/ceph_config_key.py`.

Commands are modelled as lists of `Option String` tokens where the Python
code builds lists that may contain `None` (the unresolved container engine
binary from `os.getenv("CEPH_CONTAINER_BINARY")`); a plain string token is
`some s`.  Commands built from `build_base_cmd_shell` onward are plain
`List String`, as in the source every token there is a string literal or a
string parameter.  External process runs (`module.run_command`) are
modelled by an `ExecOutcome` oracle value supplied as a parameter, and the
process environment by an explicit `CephProcEnv` value.
-/

/-- Python `str.lower()` as used on the desired value (ASCII lowercasing,
character by character; faithful to Python on the ASCII strings these
options and values are).  Defined over the character list so that it
evaluates in the kernel. -/
def pyLower (s : String) : String :=
  String.mk (s.data.map Char.toLower)

/-- Default whitespace stripped by Python `str.strip()` (ASCII subset:
space, tab, newline, carriage return, vertical tab, form feed). -/
def isPySpace (c : Char) : Bool :=
  c == ' ' || c == '\t' || c == '\n' || c == '\r' || c == '\x0b' || c == '\x0c'

/-- Python `str.strip()`: drop leading and trailing whitespace. -/
def pyStrip (s : String) : String :=
  String.mk (((s.data.dropWhile isPySpace).reverse.dropWhile isPySpace).reverse)

/-- Membership test for the character set of Python `rstrip("\r\n")`. -/
def isCRLF (c : Char) : Bool :=
  c == '\r' || c == '\n'

/-- Python `s.rstrip("\r\n")`: drop the trailing run of carriage-return
and newline characters; leading characters are untouched. -/
def rstripCRLF (s : String) : String :=
  String.mk ((s.data.reverse.dropWhile isCRLF).reverse)

/-- Process environment relevant to command building: the value of the
`CEPH_CONTAINER_BINARY` environment variable; `os.getenv` yields `None`
when the variable is unset, hence `Option String`. -/
structure CephProcEnv where
  container_binary : Option String
deriving DecidableEq

/-- Embeds `container_exec` (ceph_common.py lines 47-72): build the
container CLI to run a command inside a container.  The first token is the
environment-resolved container binary (possibly `None`), then `run`, the
optional `--interactive` flag, the fixed options, the entrypoint override
and the image reference. -/
def container_exec (env : CephProcEnv) (binary : String)
    (container_image : String) (interactive : Bool) : List (Option String) :=
  [env.container_binary, some "run"] ++
  (if interactive then [some "--interactive"] else []) ++
  [some "--rm", some "--net=host",
   some "-v", some "/etc/ceph:/etc/ceph:z",
   some "-v", some "/var/lib/ceph/:/var/lib/ceph/:z",
   some "-v", some "/var/log/ceph/:/var/log/ceph/:z",
   some ("--entrypoint=" ++ binary), some container_image]

/-- Embeds `pre_generate_cmd` (ceph_common.py lines 88-97).  Python
truthiness: `if container_image:` is false both for `None` and for the
empty string, in which case the command is just `[cmd]`. -/
def pre_generate_cmd (env : CephProcEnv) (cmd : String)
    (container_image : Option String) (interactive : Bool) :
    List (Option String) :=
  match container_image with
  | some img =>
    if img = "" then [some cmd] else container_exec env cmd img interactive
  | none => [some cmd]

/-- Embeds `generate_cmd` (ceph_common.py lines 16-44): resolve the user
key (`/etc/ceph/{cluster}.{user}.keyring` when `user_key is None`), build
the prefix via `pre_generate_cmd`, then append
`-n user -k user_key --cluster cluster`, the optional subcommand tokens
and the optional args. -/
def generate_cmd (env : CephProcEnv) (cmd : String)
    (sub_cmd args : Option (List String)) (user_key : Option String)
    (cluster user : String) (container_image : Option String)
    (interactive : Bool) : List (Option String) :=
  let key := match user_key with
    | none => "/etc/ceph/" ++ cluster ++ "." ++ user ++ ".keyring"
    | some k => k
  let base_cmd :=
    [some "-n", some user, some "-k", some key, some "--cluster", some cluster]
      ++ ((sub_cmd.getD []).map some)
  pre_generate_cmd env cmd container_image interactive ++ base_cmd
    ++ ((args.getD []).map some)

/-- Embeds `build_base_cmd` (ceph_common.py lines 139-149): `cephadm`,
optionally `--docker` and `--image <image>`; the parameters come from
`module.params`, with Python truthiness on the optional strings. -/
def build_base_cmd (docker : Bool) (image : Option String) : List String :=
  ["cephadm"] ++ (if docker then ["--docker"] else []) ++
  (match image with
   | some i => if i = "" then [] else ["--image", i]
   | none => [])

/-- Embeds `build_base_cmd_shell` (ceph_common.py lines 152-161):
`build_base_cmd` then `shell` and optionally `--fsid <fsid>`. -/
def build_base_cmd_shell (docker : Bool) (image fsid : Option String) :
    List String :=
  build_base_cmd docker image ++ ["shell"] ++
  (match fsid with
   | some f => if f = "" then [] else ["--fsid", f]
   | none => [])

/-- Outcome of one external process run (`module.run_command`): return
code, captured stdout and captured stderr.  The embedding treats the
executor as an oracle whose outcome is passed in. -/
structure ExecOutcome where
  rc : Int
  out : String
  err : String
deriving DecidableEq

/-- Token sequence of the mutating command built by `set_option`
(ceph_config_key.py lines 272-273), given the `build_base_cmd_shell`
result `base`. -/
def set_option_cmd (base : List String) (option value : String) :
    List String :=
  base ++ ["ceph", "config-key", "set", option, value]

/-- Token sequence of the read-only dump command built by
`get_config_dump` (ceph_config_key.py lines 281-282). -/
def dump_cmd (base : List String) : List String :=
  base ++ ["ceph", "config-key", "dump", "--format", "json"]

/-- Outcome of `fatal` when a module is present (ceph_common.py
lines 198-206): `module.fail_json(msg=message, rc=1)` terminates the
run with this record. -/
structure FatalAbort where
  msg : String
  rc : Int
deriving DecidableEq

/-- Embeds `get_config_dump` (ceph_config_key.py lines 280-290): run the
dump command; a truthy (nonzero) return code calls `fatal` with the
captured stderr embedded in the message, aborting the run; otherwise
stdout is stripped and `(rc, cmd, out, err)` returned. -/
def get_config_dump (base : List String) (res : ExecOutcome) :
    Except FatalAbort (Int × List String × String × String) :=
  if res.rc ≠ 0 then
    Except.error
      { msg := "Can\x27t get current configuration via `ceph config-key dump`.Error:\n"
          ++ res.err,
        rc := 1 }
  else
    Except.ok (res.rc, dump_cmd base, pyStrip res.out, res.err)

/-- Embeds `get_current_value` (ceph_config_key.py lines 293-297): walk
the parsed dump's keys; on an exact (case-sensitive) match return the
stored value, otherwise `None`.  The parsed JSON dict is modelled as an
association list. -/
def get_current_value (option : String)
    (config_dump : List (String × String)) : Option String :=
  match config_dump with
  | [] => none
  | kv :: rest =>
    if kv.1 = option then some kv.2 else get_current_value option rest

/-- Embeds `set_option` (ceph_config_key.py lines 269-277; `set_option`
is a Lean keyword, hence the `_run` suffix): build the set command from
the shell base, run it, and return `(rc, cmd, out.strip(), err)`; the
process outcome is the oracle `res`. -/
def set_option_run (base : List String) (option value : String)
    (res : ExecOutcome) : Int × List String × String × String :=
  (res.rc, set_option_cmd base option value, pyStrip res.out, res.err)

/-- Values handed by `main` to `exit_module` after the dump succeeded
(ceph_config_key.py lines 333-354), plus the ghost observation `setCmd`:
the mutating command that was executed, or `none` when no mutating
command was run. -/
structure MainResult where
  changed : Bool
  out : String
  err : String
  rc : Int
  cmd : List String
  setCmd : Option (List String)
deriving DecidableEq

/-- Embeds the decision part of `main` (ceph_config_key.py lines 339-350),
after a successful dump with return code `dumpRc` and stderr `dumpErr`
parsed into `dump`.  For `action = "set"`, `value.lower()` is compared
with the current value (`None` when absent, which no string equals); equal
means skip, otherwise `set_option` runs (its outcome is the oracle
`setRes`) and `changed` becomes true.  For any other action (the argument
spec only admits `"get"`), an absent option reports empty stdout and a
"No value found" stderr, while a present option reports its stored value. -/
def run_action (action option value : String) (base : List String)
    (dumpRc : Int) (dumpErr : String) (dump : List (String × String))
    (setRes : ExecOutcome) : MainResult :=
  let current := get_current_value option dump
  if action = "set" then
    if some (pyLower value) = current then
      { changed := false,
        out := "option=" ++ option ++ " value=" ++ value
            ++ " already set. Skipping.",
        err := dumpErr, rc := dumpRc, cmd := dump_cmd base, setCmd := none }
    else
      { changed := true,
        out := (set_option_run base option value setRes).2.2.1,
        err := (set_option_run base option value setRes).2.2.2,
        rc := (set_option_run base option value setRes).1,
        cmd := set_option_cmd base option value,
        setCmd := some (set_option_cmd base option value) }
  else
    match current with
    | none =>
      { changed := false, out := "",
        err := "No value found for option=" ++ option,
        rc := dumpRc, cmd := dump_cmd base, setCmd := none }
    | some v =>
      { changed := false, out := v, err := dumpErr, rc := dumpRc,
        cmd := dump_cmd base, setCmd := none }

/-- Embeds the post-check-mode pipeline of `main` (ceph_config_key.py
lines 332-354): run `get_config_dump`; a fatal abort propagates and
nothing further happens; otherwise the stripped stdout is parsed
(`json.loads`, modelled by the `parse` parameter) and the decision runs. -/
def main_run (action option value : String) (base : List String)
    (dumpRes : ExecOutcome) (parse : String → List (String × String))
    (setRes : ExecOutcome) : Except FatalAbort MainResult :=
  match get_config_dump base dumpRes with
  | Except.error e => Except.error e
  | Except.ok (rc, _cmd, out, err) =>
    Except.ok (run_action action option value base rc err (parse out) setRes)

/-- Models the external config-key store update performed by the command
`ceph config-key set <option> <value>` built in `set_option`
(ceph_config_key.py line 273): the next dump maps `option` to the value
passed verbatim (the module hands `value` unmodified to the CLI), leaving
every other key unchanged. -/
def store_set (dump : List (String × String)) (option value : String) :
    List (String × String) :=
  (option, value) :: dump.filter (fun kv => kv.1 != option)

/-- One "set"-intent run of the reconciler decision
(ceph_config_key.py lines 339-344) together with the store evolution:
returns the `changed` flag and the store as the next dump will show it
(`store_set` when the set command ran, unchanged otherwise). -/
def set_run (option value : String) (dump : List (String × String)) :
    Bool × List (String × String) :=
  if some (pyLower value) = get_current_value option dump then (false, dump)
  else (true, store_set dump option value)

/-- Trace of the `_retry` closure produced by `retry`
(ceph_common.py lines 115-136) for an operation whose outcome on its
`n`-th invocation (0-based) is `f n` — `Except.error` models a raised
exception of the retryable kind.  Arguments after `delay` are the loop
state: the remaining `_tries` budget, the number of calls made so far,
and the list of sleep durations performed so far.  While `_tries > 1`,
the operation is called; an exception sleeps `delay` and decrements the
budget; at budget `0` or `1` one final unguarded call is made and its
outcome (result or exception) is returned.  The result is the final
outcome, the total number of calls, and the sleep durations. -/
def retry_run {E A : Type} (f : Nat → Except E A) (delay : Nat) :
    Nat → Nat → List Nat → Except E A × Nat × List Nat
  | 0, calls, sleeps => (f calls, calls + 1, sleeps)
  | 1, calls, sleeps => (f calls, calls + 1, sleeps)
  | t + 2, calls, sleeps =>
    match f calls with
    | Except.ok a => (Except.ok a, calls + 1, sleeps)
    | Except.error _ => retry_run f delay (t + 1) (calls + 1) (sleeps ++ [delay])

/-- The record handed to `module.exit_json` by `exit_module`
(ceph_common.py lines 171-195): command, stringified timestamps and
duration, return code, the two streams, the changed flag and the optional
diff. -/
structure RunReport where
  cmd : List String
  start : String
  stop : String
  delta : String
  rc : Int
  stdout : String
  stderr : String
  changed : Bool
  diff : Option (List (String × String))
deriving DecidableEq

/-- Embeds `exit_module` (ceph_common.py lines 171-195): builds the result
record with `out.rstrip("\r\n")` and `err.rstrip("\r\n")` and hands it to
`module.exit_json`, which terminates the run — in this embedding the
returned `RunReport` is the terminal artifact, so the function yields it
instead of continuing any pipeline.  The end timestamp and the elapsed
delta are taken as parameters (wall-clock reads). -/
def exit_module (rc : Int) (cmd : List String)
    (startd endd delta : String) (out err : String) (changed : Bool)
    (diff : Option (List (String × String))) : RunReport :=
  { cmd := cmd, start := startd, stop := endd, delta := delta, rc := rc,
    stdout := rstripCRLF out, stderr := rstripCRLF err, changed := changed,
    diff := diff }

/-- The identity/credential/cluster suffix that `generate_cmd` appends
after the `pre_generate_cmd` prefix: `-n user -k key --cluster cluster`,
the optional subcommand tokens and the optional args. -/
def generate_cmd_tail (sub_cmd args : Option (List String))
    (user_key : Option String) (cluster user : String) :
    List (Option String) :=
  ([some "-n", some user, some "-k",
    some (match user_key with
      | none => "/etc/ceph/" ++ cluster ++ "." ++ user ++ ".keyring"
      | some k => k),
    some "--cluster", some cluster]
    ++ ((sub_cmd.getD []).map some)) ++ ((args.getD []).map some)

/-! ## Helper lemmas -/

/-- `generate_cmd` is the `pre_generate_cmd` prefix followed by the
identity/credential/cluster tail. -/
lemma generate_cmd_eq_pre_append (env : CephProcEnv) (cmd : String)
    (sub_cmd args : Option (List String)) (user_key : Option String)
    (cluster user : String) (container_image : Option String)
    (interactive : Bool) :
    generate_cmd env cmd sub_cmd args user_key cluster user container_image
        interactive =
      pre_generate_cmd env cmd container_image interactive ++
        generate_cmd_tail sub_cmd args user_key cluster user := by
  simp [generate_cmd, generate_cmd_tail, List.append_assoc]

/-- An option whose name matches no key of the dump looks up to `none`. -/
lemma get_current_value_eq_none (option : String) :
    ∀ dump : List (String × String), (∀ kv ∈ dump, kv.1 ≠ option) →
      get_current_value option dump = none := by
  intro dump
  induction dump with
  | nil => intro _; rfl
  | cons kv rest ih =>
    intro h
    have h1 : kv.1 ≠ option := h kv (List.mem_cons_self kv rest)
    have h2 := ih (fun x hx => h x (List.mem_cons_of_mem kv hx))
    simp [get_current_value, h1, h2]

/-- After the modelled store update, the option looks up to the value
just stored. -/
lemma get_current_value_store_set (option value : String)
    (dump : List (String × String)) :
    get_current_value option (store_set dump option value) = some value := by
  simp [store_set, get_current_value]

/-! ## C1: set decision compares the lower-cased desired value with the
stored value taken verbatim -/

/-- Claim C1: for the set intent with the option present in the dump with
stored value `cur`, the reconciler is a no-op (changed = false, no set
command) exactly when the lower-cased desired value equals `cur`;
otherwise the set command for `(option, value)` runs and changed = true. -/
theorem set_decision_case_insensitive_desired
    (option value cur : String) (base : List String) (dumpRc : Int)
    (dumpErr : String) (dump : List (String × String)) (setRes : ExecOutcome)
    (hcur : get_current_value option dump = some cur) :
    (pyLower value = cur →
      (run_action "set" option value base dumpRc dumpErr dump setRes).changed
          = false ∧
      (run_action "set" option value base dumpRc dumpErr dump setRes).setCmd
          = none) ∧
    (pyLower value ≠ cur →
      (run_action "set" option value base dumpRc dumpErr dump setRes).changed
          = true ∧
      (run_action "set" option value base dumpRc dumpErr dump setRes).setCmd
          = some (set_option_cmd base option value)) := by
  constructor
  · intro hEq
    simp [run_action, hcur, hEq]
  · intro hNe
    simp [run_action, hcur, hNe]

/-- Claim C1 witness: desired "BAR" against stored "bar" is a no-op. -/
theorem set_decision_case_insensitive_desired_witness :
    get_current_value "foo" [("foo", "bar")] = some "bar" ∧
    pyLower "BAR" = "bar" ∧
    (run_action "set" "foo" "BAR" [] 0 "" [("foo", "bar")] ⟨0, "", ""⟩).changed
        = false := by
  refine ⟨by decide, by decide, ?_⟩
  exact ((set_decision_case_insensitive_desired "foo" "BAR" "bar" [] 0 ""
    [("foo", "bar")] ⟨0, "", ""⟩ (by decide)).1 (by decide)).1

/-! ## C2: idempotence of the set intent -/

/-- Claim C2 counterexample: with desired value "BAR" on an empty store,
the second run is again changed = true (the stored value "BAR" never
equals the lower-cased desired "bar"); moreover when the value already
matches, even the first run has changed = false. -/
theorem set_not_idempotent_cex :
    (set_run "foo" "BAR" (set_run "foo" "BAR" []).2).1 = true ∧
    (set_run "foo" "bar" [("foo", "bar")]).1 = false := by decide

/-- Claim C2 amended: the set intent is idempotent exactly for desired
values fixed by lower-casing: if `pyLower value = value` and the dump does
not already store `value` for `option`, the first run has changed = true
and stores `value`, and the second run (its dump showing the stored value)
has changed = false with the same final store. -/
theorem set_idempotent_for_lowercase_values
    (option value : String) (dump : List (String × String))
    (hlow : pyLower value = value)
    (hneq : get_current_value option dump ≠ some value) :
    (set_run option value dump).1 = true ∧
    (set_run option value (set_run option value dump).2).1 = false ∧
    get_current_value option (set_run option value dump).2 = some value ∧
    (set_run option value (set_run option value dump).2).2 =
      (set_run option value dump).2 := by
  have hc1 : ¬ (some (pyLower value) = get_current_value option dump) := by
    rw [hlow]
    intro h
    exact hneq h.symm
  have h1 : set_run option value dump = (true, store_set dump option value) := by
    simp [set_run, hc1]
  have hlook := get_current_value_store_set option value dump
  have hc2 : some (pyLower value) =
      get_current_value option (store_set dump option value) := by
    rw [hlook, hlow]
  have h2 : set_run option value (store_set dump option value) =
      (false, store_set dump option value) := by
    simp [set_run, hc2]
  refine ⟨?_, ?_, ?_, ?_⟩ <;> simp [h1, h2, hlook]

/-- Claim C2 amended witness: the spec scenario with a lowercase value,
`mon_allow_pool_delete` flipping from "false" to "true". -/
theorem set_idempotent_for_lowercase_values_witness :
    pyLower "true" = "true" ∧
    get_current_value "mon_allow_pool_delete"
        [("mon_allow_pool_delete", "false")] ≠ some "true" ∧
    (set_run "mon_allow_pool_delete" "true"
        [("mon_allow_pool_delete", "false")]).1 = true ∧
    (set_run "mon_allow_pool_delete" "true"
      (set_run "mon_allow_pool_delete" "true"
        [("mon_allow_pool_delete", "false")]).2).1 = false := by
  refine ⟨by decide, by decide, ?_, ?_⟩
  · exact (set_idempotent_for_lowercase_values "mon_allow_pool_delete" "true"
      [("mon_allow_pool_delete", "false")] (by decide) (by decide)).1
  · exact (set_idempotent_for_lowercase_values "mon_allow_pool_delete" "true"
      [("mon_allow_pool_delete", "false")] (by decide) (by decide)).2.1

/-! ## C3: absent option looks up to the unset value -/

/-- Claim C3: when the option is absent from the parsed dump, the lookup
yields the unset value `none` — distinct from an empty-string stored value
(which yields `some ""`) — and both the get reporting and the set decision
are computed against that unset value. -/
theorem absent_option_lookup_unset
    (option : String) (dump : List (String × String))
    (habs : ∀ kv ∈ dump, kv.1 ≠ option) :
    get_current_value option dump = none ∧
    get_current_value option dump ≠ some "" ∧
    (∀ rest : List (String × String),
      get_current_value option ((option, "") :: rest) = some "") ∧
    (∀ (value : String) (base : List String) (dumpRc : Int)
        (dumpErr : String) (setRes : ExecOutcome),
      (run_action "get" option value base dumpRc dumpErr dump setRes).out
          = "" ∧
      (run_action "get" option value base dumpRc dumpErr dump setRes).err
          = "No value found for option=" ++ option) ∧
    (∀ (value : String) (base : List String) (dumpRc : Int)
        (dumpErr : String) (setRes : ExecOutcome),
      (run_action "set" option value base dumpRc dumpErr dump setRes).changed
          = true) := by
  have hnone := get_current_value_eq_none option dump habs
  refine ⟨hnone, by simp [hnone], ?_, ?_, ?_⟩
  · intro rest
    simp [get_current_value]
  · intro value base dumpRc dumpErr setRes
    constructor <;> simp [run_action, hnone]
  · intro value base dumpRc dumpErr setRes
    simp [run_action, hnone]

/-- Claim C3 witness: option "foo" absent from a one-key dump. -/
theorem absent_option_lookup_unset_witness :
    (∀ kv ∈ [("bar", "x")], Prod.fst kv ≠ "foo") ∧
    get_current_value "foo" [("bar", "x")] = none := by
  refine ⟨by decide, ?_⟩
  exact (absent_option_lookup_unset "foo" [("bar", "x")] (by decide)).1

/-! ## C10: absent option always mutates under the set intent -/

/-- Claim C10: for the set intent on an option absent from the dump, the
lookup returns `none`, which no `some (pyLower value)` equals, so the set
command is issued and changed = true — including when the desired value is
the literal string "unset". -/
theorem absent_option_set_always_mutates
    (option value : String) (base : List String) (dumpRc : Int)
    (dumpErr : String) (dump : List (String × String)) (setRes : ExecOutcome)
    (habs : get_current_value option dump = none) :
    (some (pyLower value) ≠ (none : Option String)) ∧
    (run_action "set" option value base dumpRc dumpErr dump setRes).changed
        = true ∧
    (run_action "set" option value base dumpRc dumpErr dump setRes).setCmd
        = some (set_option_cmd base option value) := by
  refine ⟨by simp, ?_, ?_⟩ <;> simp [run_action, habs]

/-- Claim C10 witness: desired value "unset" on an empty dump still issues
the set command. -/
theorem absent_option_set_always_mutates_witness :
    get_current_value "foo" [] = none ∧
    (run_action "set" "foo" "unset" [] 0 "" [] ⟨0, "", ""⟩).changed = true := by
  refine ⟨rfl, ?_⟩
  exact (absent_option_set_always_mutates "foo" "unset" [] 0 "" []
    ⟨0, "", ""⟩ rfl).2.1

/-! ## C4: nonzero dump return code aborts fatally before any set -/

/-- Claim C4: when the dump command returns a nonzero code, the run aborts
with the captured stderr inside the failure message (rc 1), and the
outcome is the same for every possible parse and set-command oracle — in
particular no set command is built or executed. -/
theorem dump_failure_fatal
    (action option value : String) (base : List String)
    (dumpRes : ExecOutcome) (hrc : dumpRes.rc ≠ 0) :
    ∀ (parse : String → List (String × String)) (setRes : ExecOutcome),
      main_run action option value base dumpRes parse setRes =
        Except.error
          { msg := "Can\x27t get current configuration via `ceph config-key dump`.Error:\n"
              ++ dumpRes.err,
            rc := 1 } := by
  intro parse setRes
  simp [main_run, get_config_dump, hrc]

/-- Claim C4 witness: a dump failing with rc 2 and stderr "boom". -/
theorem dump_failure_fatal_witness :
    (ExecOutcome.rc ⟨2, "ignored", "boom"⟩ ≠ 0) ∧
    main_run "set" "o" "v" [] ⟨2, "ignored", "boom"⟩ (fun _ => []) ⟨0, "", ""⟩
      = Except.error
          ⟨"Can\x27t get current configuration via `ceph config-key dump`.Error:\n"
              ++ "boom", 1⟩ := by
  refine ⟨by decide, ?_⟩
  exact dump_failure_fatal "set" "o" "v" [] ⟨2, "ignored", "boom"⟩ (by decide)
    (fun _ => []) ⟨0, "", ""⟩

/-! ## C6: the get intent never mutates and reports as specified -/

/-- Claim C6: under the get intent no mutating command ever runs and
changed is false; an absent option reports empty stdout, a stderr naming
the option, and the dump call's return code; a present option reports the
stored value as stdout (the return code again being the dump's). -/
theorem get_intent_no_mutation
    (option value : String) (base : List String) (dumpRc : Int)
    (dumpErr : String) (dump : List (String × String)) (setRes : ExecOutcome) :
    (run_action "get" option value base dumpRc dumpErr dump setRes).setCmd
        = none ∧
    (run_action "get" option value base dumpRc dumpErr dump setRes).changed
        = false ∧
    (run_action "get" option value base dumpRc dumpErr dump setRes).rc
        = dumpRc ∧
    (get_current_value option dump = none →
      (run_action "get" option value base dumpRc dumpErr dump setRes).out
          = "" ∧
      (run_action "get" option value base dumpRc dumpErr dump setRes).err
          = "No value found for option=" ++ option) ∧
    (∀ cur, get_current_value option dump = some cur →
      (run_action "get" option value base dumpRc dumpErr dump setRes).out
          = cur) := by
  cases h : get_current_value option dump with
  | none => simp [run_action, h]
  | some v => simp [run_action, h]

/-- Claim C6 witness: a present option reports its stored value. -/
theorem get_intent_no_mutation_witness :
    get_current_value "foo" [("foo", "bar")] = some "bar" ∧
    (run_action "get" "foo" "" [] 5 "e" [("foo", "bar")] ⟨0, "", ""⟩).out
        = "bar" := by
  refine ⟨by decide, ?_⟩
  exact (get_intent_no_mutation "foo" "" [] 5 "e" [("foo", "bar")]
    ⟨0, "", ""⟩).2.2.2.2 "bar" (by decide)

/-! ## C7: container wrapping shape -/

/-- Claim C7: with no container image the built prefix is exactly the
single base-binary token; with a (nonempty) image every built command is
wrapped as a container-run invocation of the fixed shape — engine binary,
`run`, the `--interactive` flag exactly when requested and before the
fixed options, then `--rm`, host networking, the three relabeled bind
mounts, the entrypoint override and the image — and `generate_cmd` always
starts with that prefix. -/
theorem container_wrap_shape
    (env : CephProcEnv) (cmd img : String) (interactive : Bool)
    (sub args : Option (List String)) (user_key : Option String)
    (cluster user : String) (himg : img ≠ "") :
    pre_generate_cmd env cmd none interactive = [some cmd] ∧
    pre_generate_cmd env cmd (some img) interactive =
      [env.container_binary, some "run"] ++
      (if interactive then [some "--interactive"] else []) ++
      [some "--rm", some "--net=host",
       some "-v", some "/etc/ceph:/etc/ceph:z",
       some "-v", some "/var/lib/ceph/:/var/lib/ceph/:z",
       some "-v", some "/var/log/ceph/:/var/log/ceph/:z",
       some ("--entrypoint=" ++ cmd), some img] ∧
    (∃ tail,
      generate_cmd env cmd sub args user_key cluster user (some img)
          interactive
        = pre_generate_cmd env cmd (some img) interactive ++ tail) ∧
    (∃ tail,
      generate_cmd env cmd sub args user_key cluster user none interactive
        = some cmd :: tail) := by
  refine ⟨rfl, ?_, ?_, ?_⟩
  · simp [pre_generate_cmd, container_exec, himg]
  · exact ⟨generate_cmd_tail sub args user_key cluster user,
      generate_cmd_eq_pre_append env cmd sub args user_key cluster user
        (some img) interactive⟩
  · exact ⟨generate_cmd_tail sub args user_key cluster user,
      generate_cmd_eq_pre_append env cmd sub args user_key cluster user
        none interactive⟩

/-- Claim C7 witness: interactive podman wrapping of the ceph binary. -/
theorem container_wrap_shape_witness :
    ("image" ≠ "") ∧
    pre_generate_cmd ⟨some "podman"⟩ "ceph" (some "image") true =
      [some "podman", some "run"] ++
      (if true then [some "--interactive"] else []) ++
      [some "--rm", some "--net=host",
       some "-v", some "/etc/ceph:/etc/ceph:z",
       some "-v", some "/var/lib/ceph/:/var/lib/ceph/:z",
       some "-v", some "/var/log/ceph/:/var/log/ceph/:z",
       some ("--entrypoint=" ++ "ceph"), some "image"] := by
  refine ⟨by decide, ?_⟩
  exact (container_wrap_shape ⟨some "podman"⟩ "ceph" "image" true none none
    none "ceph" "client.admin" (by decide)).2.1

/-! ## C9: purity of the command builder -/

/-- Claim C9 counterexample: with a container image set, the token
sequence built by `generate_cmd` depends on the environment's
`CEPH_CONTAINER_BINARY` value — the same builder inputs yield different
commands under two environments, so the build is not independent of the
environment variables it reads. -/
theorem generate_cmd_env_dependent_cex :
    generate_cmd ⟨some "docker"⟩ "ceph" none none none "ceph" "client.admin"
        (some "img") false ≠
      generate_cmd ⟨some "podman"⟩ "ceph" none none none "ceph"
        "client.admin" (some "img") false := by decide

/-- Claim C9 amended: the builder is deterministic in its inputs together
with the environment's container-binary value; when the container image is
unset (or empty, which Python truthiness treats the same), the output is
independent of the environment. -/
theorem generate_cmd_env_independent_when_native
    (env1 env2 : CephProcEnv) (cmd : String) (sub args : Option (List String))
    (user_key : Option String) (cluster user : String) (interactive : Bool) :
    generate_cmd env1 cmd sub args user_key cluster user none interactive =
      generate_cmd env2 cmd sub args user_key cluster user none interactive ∧
    generate_cmd env1 cmd sub args user_key cluster user (some "") interactive
      = generate_cmd env2 cmd sub args user_key cluster user (some "")
          interactive := by
  constructor <;> rfl

/-! ## C5: retry exhaustion -/

/-- Trace of the retry loop for an always-failing operation, generalized
over the loop state: with budget `t + 1` and `calls` calls already made,
the loop makes `t` further guarded calls (each followed by one sleep of
`delay`) and one final unguarded call, and the final exception is the
result. -/
lemma retry_run_error_trace {E A : Type} (f : Nat → Except E A)
    (e : Nat → E) (hf : ∀ n, f n = Except.error (e n)) (delay : Nat) :
    ∀ (t calls : Nat) (sleeps : List Nat),
      retry_run f delay (t + 1) calls sleeps =
        (Except.error (e (calls + t)), calls + t + 1,
          sleeps ++ List.replicate t delay) := by
  intro t
  induction t with
  | zero =>
    intro calls sleeps
    simp [retry_run, hf]
  | succ t ih =>
    intro calls sleeps
    rw [show t + 1 + 1 = t + 2 from rfl]
    simp only [retry_run, hf calls]
    rw [ih (calls + 1) (sleeps ++ [delay])]
    have h1 : calls + 1 + t = calls + (t + 1) := by omega
    rw [h1, List.append_assoc, List.singleton_append, ← List.replicate_succ]

/-- Claim C5: for an operation that always raises a retryable exception,
the wrapper with budget `retries ≥ 1` calls the operation exactly
`retries` times in total — `retries - 1` guarded calls each followed by a
sleep of `delay`, then one final unguarded call — and the final call's
exception is the propagated outcome. -/
theorem retry_exhaustion {E A : Type} (f : Nat → Except E A) (e : Nat → E)
    (hf : ∀ n, f n = Except.error (e n)) (delay retries : Nat)
    (hr : 1 ≤ retries) :
    retry_run f delay retries 0 [] =
      (Except.error (e (retries - 1)), retries,
        List.replicate (retries - 1) delay) := by
  obtain ⟨t, rfl⟩ : ∃ t, retries = t + 1 := ⟨retries - 1, by omega⟩
  simpa using retry_run_error_trace f e hf delay t 0 []

/-- Claim C5 witness: a budget of 3 makes exactly 3 calls, sleeps twice,
and propagates the exception of the final (0-based index 2) call. -/
theorem retry_exhaustion_witness :
    (1 ≤ 3) ∧
    retry_run (fun n => (Except.error n : Except Nat Nat)) 1 3 0 [] =
      (Except.error 2, 3, List.replicate 2 1) := by
  refine ⟨by decide, ?_⟩
  exact retry_exhaustion (fun n => (Except.error n : Except Nat Nat))
    (fun n => n) (fun _ => rfl) 1 3 (by decide)

/-! ## C8: result reporter trimming -/

/-- The first element surviving `dropWhile` falsifies the predicate. -/
lemma head?_dropWhile_eq_false {p : Char → Bool} :
    ∀ (l : List Char) (c : Char), (l.dropWhile p).head? = some c →
      p c = false := by
  intro l
  induction l with
  | nil =>
    intro c h
    simp [List.dropWhile] at h
  | cons a t ih =>
    intro c h
    rw [List.dropWhile_cons] at h
    by_cases hp : p a
    · rw [if_pos hp] at h
      exact ih c h
    · rw [if_neg hp] at h
      simp only [List.head?_cons, Option.some.injEq] at h
      subst h
      exact Bool.not_eq_true _ |>.mp hp

/-- Characterization of `rstripCRLF`: the input splits as the output
followed by a run of carriage-return/newline characters, and the output
does not end in such a character. -/
lemma rstripCRLF_spec (s : String) :
    ∃ t : List Char,
      s.data = (rstripCRLF s).data ++ t ∧
      (∀ c ∈ t, isCRLF c = true) ∧
      (∀ c, (rstripCRLF s).data.getLast? = some c → isCRLF c = false) := by
  refine ⟨(s.data.reverse.takeWhile isCRLF).reverse, ?_, ?_, ?_⟩
  · show s.data = (s.data.reverse.dropWhile isCRLF).reverse ++
      (s.data.reverse.takeWhile isCRLF).reverse
    rw [← List.reverse_append, List.takeWhile_append_dropWhile,
      List.reverse_reverse]
  · intro c hc
    rw [List.mem_reverse] at hc
    exact List.mem_takeWhile_imp hc
  · intro c hc
    have hc2 : (s.data.reverse.dropWhile isCRLF).reverse.getLast? = some c :=
      hc
    rw [List.getLast?_reverse] at hc2
    exact head?_dropWhile_eq_false _ c hc2

/-- Claim C8 counterexample: `exit_module` keeps leading newlines — the
report's stdout for input `"\nfoo\n"` is `"\nfoo"`, not the
leading-and-trailing-trimmed `"foo"` the claim asserts. -/
theorem exit_module_leading_newline_kept_cex :
    (exit_module 0 [] "" "" "" "\nfoo\n" "\nbar\n" false none).stdout
        = "\nfoo" ∧
    "\nfoo" ≠ "foo" := by decide

/-- Claim C8 amended: the reporter builds the terminal RunReport with the
trailing (only) run of newline/carriage-return characters trimmed from
both stdout and stderr — the input is the reported stream followed by a
removed all-CRLF suffix, and the reported stream does not end in CRLF —
while the remaining fields pass through unchanged; the report is the
terminal artifact of the run. -/
theorem exit_module_trailing_trim
    (rc : Int) (cmd : List String) (startd endd delta out err : String)
    (changed : Bool) (diff : Option (List (String × String))) :
    (exit_module rc cmd startd endd delta out err changed diff).stdout
        = rstripCRLF out ∧
    (exit_module rc cmd startd endd delta out err changed diff).stderr
        = rstripCRLF err ∧
    (∃ t : List Char,
      out.data =
        (exit_module rc cmd startd endd delta out err changed diff).stdout.data
          ++ t ∧
      ∀ c ∈ t, isCRLF c = true) ∧
    (∀ c,
      (exit_module rc cmd startd endd delta out err changed diff).stdout.data.getLast?
          = some c → isCRLF c = false) ∧
    (∃ t : List Char,
      err.data =
        (exit_module rc cmd startd endd delta out err changed diff).stderr.data
          ++ t ∧
      ∀ c ∈ t, isCRLF c = true) ∧
    (∀ c,
      (exit_module rc cmd startd endd delta out err changed diff).stderr.data.getLast?
          = some c → isCRLF c = false) ∧
    (exit_module rc cmd startd endd delta out err changed diff).changed
        = changed ∧
    (exit_module rc cmd startd endd delta out err changed diff).rc = rc ∧
    (exit_module rc cmd startd endd delta out err changed diff).cmd = cmd := by
  obtain ⟨t1, hsplit1, hall1, hlast1⟩ := rstripCRLF_spec out
  obtain ⟨t2, hsplit2, hall2, hlast2⟩ := rstripCRLF_spec err
  exact ⟨rfl, rfl, ⟨t1, hsplit1, hall1⟩, hlast1, ⟨t2, hsplit2, hall2⟩,
    hlast2, rfl, rfl, rfl⟩

/-- Claim C8 amended witness: a stdout of `"foo\r\n\n"` is reported as
`"foo"` with the `"\r\n\n"` suffix removed. -/
theorem exit_module_trailing_trim_witness :
    (exit_module 0 [] "" "" "" "foo\r\n\n" "" false none).stdout
        = rstripCRLF "foo\r\n\n" ∧
    rstripCRLF "foo\r\n\n" = "foo" := by
  refine ⟨?_, by decide⟩
  exact (exit_module_trailing_trim 0 [] "" "" "" "foo\r\n\n" "" false none).1
